import Mathlib

/-!
Verification of the projector-rs argument classifier and path resolver
(`src/config.rs`), as a shallow embedding in Lean.

Paths (`PathBuf`) are modelled as `String`; the environment
(`std::env::var`) is an explicit function `String → Option String`;
the process current directory (`std::env::current_dir`) is an explicit
`Option String` (where `none` models the query failing).  `anyhow`
errors are modelled by the `ConfigError` inductive, one constructor per
failure site of the source, each carrying the exact message text the
source builds.
-/

/-- The `Opts` record, as consumed by `config.rs` (fields `args`,
`pwd`, `config` of `crate::opts::Opts`). -/
structure Opts where
  args : List String
  pwd : Option String
  config : Option String

/-- The `Operation` enum from `config.rs`. -/
inductive Operation where
  | Print : Option String → Operation
  | Add : String → String → Operation
  | Remove : String → Operation
  deriving DecidableEq, Repr

/-- Error values.  The source returns `anyhow::Error`; each constructor
corresponds to one failure site and carries the message the source
formats there: classifier arity failures (`anyhow!` in
`TryFrom<Vec<String>> for Operation`), the missing environment variable
(`.context` in `get_config`), and the current-directory query failing
(`.context` in `get_pwd`). -/
inductive ConfigError where
  | InvalidArguments : String → ConfigError
  | EnvironmentLookupFailure : String → ConfigError
  | WorkingDirectoryUnavailable : String → ConfigError
  deriving DecidableEq, Repr

/-- The `Config` struct from `config.rs`. -/
structure Config where
  operation : Operation
  pwd : String
  config : String

/-- `TryFrom<Vec<String>> for Operation::try_from`.  `value.get(0)` is
modelled by `headD` (reached only when the list is nonempty, so the
default mirrors the source's infallible `.expect`); `drain(1..=2)`
yields the elements at indices 1 and 2 in order (`getD 1`, `getD 2`,
again with unreachable defaults); `value.pop()` removes and returns the
last element (`getD 1` on a length-2 list in the `rm` branch,
`getLast?` on a length-≤1 list in the print branch). -/
def operationTryFrom (value : List String) : Except ConfigError Operation :=
  if value.length = 0 then
    .ok (.Print none)
  else if value.headD "" = "add" then
    if value.length ≠ 3 then
      .error (.InvalidArguments
        ("operation add expects 2 arguments but got " ++ toString (value.length - 1)))
    else
      .ok (.Add (value.getD 1 "") (value.getD 2 ""))
  else if value.headD "" = "rm" then
    if value.length ≠ 2 then
      .error (.InvalidArguments
        ("operation add expects 1 argument but got " ++ toString (value.length - 1)))
    else
      .ok (.Remove (value.getD 1 ""))
  else if value.length > 1 then
    .error (.InvalidArguments
      ("operation print expects 0 or 1 arguments but got " ++ toString value.length))
  else
    .ok (.Print value.getLast?)

/-- Does the string end with the path separator. -/
def endsWithSep (s : String) : Prop :=
  s.data.getLast? = some '/'

instance (s : String) : Decidable (endsWithSep s) :=
  inferInstanceAs (Decidable (s.data.getLast? = some '/'))

/-- Is the string an absolute path (Unix). -/
def isAbsolutePath (s : String) : Prop :=
  s.data.head? = some '/'

instance (s : String) : Decidable (isAbsolutePath s) :=
  inferInstanceAs (Decidable (s.data.head? = some '/'))

/-- `PathBuf::push` on Unix: an absolute child replaces the path;
otherwise the child is appended, inserting a `/` separator unless the
base is empty or already ends with one. -/
def pathPush (base child : String) : String :=
  if isAbsolutePath child then child
  else if base = "" then child
  else if endsWithSep base then base ++ child
  else base ++ "/" ++ child

/-- `get_config` from `config.rs`: an explicit override is returned
as-is; otherwise `XDG_CONFIG_HOME` is read and `projector` then
`projector.json` are pushed onto it. -/
def get_config (env : String → Option String) (config : Option String) :
    Except ConfigError String :=
  match config with
  | some v => .ok v
  | none =>
    match env "XDG_CONFIG_HOME" with
    | none => .error (.EnvironmentLookupFailure "unable to get XDG_CONFIG_HOME")
    | some loc => .ok (pathPush (pathPush loc "projector") "projector.json")

/-- `get_pwd` from `config.rs`: an explicit override is returned as-is;
otherwise the current directory is queried, its failure reported. -/
def get_pwd (currentDir : Option String) (pwd : Option String) :
    Except ConfigError String :=
  match pwd with
  | some p => .ok p
  | none =>
    match currentDir with
    | some d => .ok d
    | none => .error (.WorkingDirectoryUnavailable "errored getting current dir")

/-- `TryFrom<Opts> for Config::try_from`: classify the args, then
resolve the config path, then the working directory, propagating the
first error (the `?` operator). -/
def configTryFrom (env : String → Option String) (currentDir : Option String)
    (value : Opts) : Except ConfigError Config :=
  match operationTryFrom value.args with
  | .error e => .error e
  | .ok operation =>
    match get_config env value.config with
    | .error e => .error e
    | .ok config =>
      match get_pwd currentDir value.pwd with
      | .error e => .error e
      | .ok pwd => .ok { operation := operation, pwd := pwd, config := config }

/-- Number of string arguments carried by an `Operation` value. -/
def Operation.argCount : Operation → Nat
  | .Print none => 0
  | .Print (some _) => 1
  | .Add _ _ => 2
  | .Remove _ => 1

/-- The per-variant arity contract of the spec: `Print` carries zero or
one key, `Add` exactly two arguments, `Remove` exactly one. -/
def Operation.arityOk : Operation → Prop
  | .Print o => Operation.argCount (.Print o) ≤ 1
  | .Add k v => Operation.argCount (.Add k v) = 2
  | .Remove k => Operation.argCount (.Remove k) = 1

-- Helper lemmas (shared; not claim theorems).

theorem operationTryFrom_add_err (t : List String) (h : t.length + 1 ≠ 3) :
    operationTryFrom ("add" :: t) = .error (.InvalidArguments
      ("operation add expects 2 arguments but got " ++ toString t.length)) := by
  simp [operationTryFrom, h]

theorem operationTryFrom_rm_err (t : List String) (h : t.length + 1 ≠ 2) :
    operationTryFrom ("rm" :: t) = .error (.InvalidArguments
      ("operation add expects 1 argument but got " ++ toString t.length)) := by
  simp [operationTryFrom, h]

/-- Claim C1: with first token `add`, exactly three tokens classify as
`Add` of tokens 2 and 3 in order, and any other length fails with the
`InvalidArguments` message reporting expected count 2 and actual count
`len - 1`. -/
theorem claim_C1 :
    (∀ k v : String, operationTryFrom ["add", k, v] = .ok (.Add k v)) ∧
    (∀ l : List String, l.head? = some "add" → l.length ≠ 3 →
      operationTryFrom l = .error (.InvalidArguments
        ("operation add expects 2 arguments but got " ++ toString (l.length - 1)))) := by
  constructor
  · intro k v
    rfl
  · intro l h1 h2
    cases l with
    | nil => simp at h1
    | cons a t =>
      simp only [List.head?] at h1
      injection h1 with h1
      subst h1
      simp only [List.length_cons] at h2
      simpa using operationTryFrom_add_err t h2

/-- Claim C1 witness: the success and failure branches at concrete
inputs. -/
theorem claim_C1_witness :
    operationTryFrom ["add", "foo", "bar"] = .ok (.Add "foo" "bar") ∧
    operationTryFrom ["add", "foo"] = .error (.InvalidArguments
      ("operation add expects 2 arguments but got " ++ toString 1)) := by
  refine ⟨claim_C1.1 "foo" "bar", ?_⟩
  have h := claim_C1.2 ["add", "foo"] rfl (by decide)
  simpa using h

/-- Claim C2: with first token `rm`, exactly two tokens classify as
`Remove` of the second token, and any other length fails with the
`InvalidArguments` message reporting expected count 1 and actual count
`len - 1`. -/
theorem claim_C2 :
    (∀ k : String, operationTryFrom ["rm", k] = .ok (.Remove k)) ∧
    (∀ l : List String, l.head? = some "rm" → l.length ≠ 2 →
      operationTryFrom l = .error (.InvalidArguments
        ("operation add expects 1 argument but got " ++ toString (l.length - 1)))) := by
  constructor
  · intro k
    rfl
  · intro l h1 h2
    cases l with
    | nil => simp at h1
    | cons a t =>
      simp only [List.head?] at h1
      injection h1 with h1
      subst h1
      simp only [List.length_cons] at h2
      simpa using operationTryFrom_rm_err t h2

/-- Claim C2 witness: `["rm", "foo"]` succeeds and `["rm"]` fails
reporting expected 1, got 0. -/
theorem claim_C2_witness :
    operationTryFrom ["rm", "foo"] = .ok (.Remove "foo") ∧
    operationTryFrom ["rm"] = .error (.InvalidArguments
      ("operation add expects 1 argument but got " ++ toString 0)) := by
  refine ⟨claim_C2.1 "foo", ?_⟩
  have h := claim_C2.2 ["rm"] rfl (by decide)
  simpa using h

/-- Claim C3: the empty sequence classifies as `Print(None)`, and a
single token other than `add` and `rm` classifies as
`Print(Some(token))`. -/
theorem claim_C3 :
    operationTryFrom [] = .ok (.Print none) ∧
    (∀ t : String, t ≠ "add" → t ≠ "rm" →
      operationTryFrom [t] = .ok (.Print (some t))) := by
  refine ⟨rfl, ?_⟩
  intro t h1 h2
  simp [operationTryFrom, h1, h2]

/-- Claim C3 witness: the single-token branch at a concrete token. -/
theorem claim_C3_witness :
    operationTryFrom ["foo"] = .ok (.Print (some "foo")) :=
  claim_C3.2 "foo" (by decide) (by decide)

/-- Claim C4: a sequence of length at least 2 whose first token is
neither `add` nor `rm` fails with the `InvalidArguments` message whose
actual count is the full sequence length. -/
theorem claim_C4 (l : List String) (t : String) (h1 : l.head? = some t)
    (h2 : t ≠ "add") (h3 : t ≠ "rm") (h4 : 2 ≤ l.length) :
    operationTryFrom l = .error (.InvalidArguments
      ("operation print expects 0 or 1 arguments but got " ++ toString l.length)) := by
  cases l with
  | nil => simp at h1
  | cons a rest =>
    simp only [List.head?] at h1
    injection h1 with h1
    subst h1
    simp only [List.length_cons] at h4 ⊢
    have h5 : rest.length + 1 ≠ 0 := by omega
    have h6 : rest.length + 1 > 1 := by omega
    simp [operationTryFrom, h2, h3, h5, h6]

/-- Claim C4 witness: a two-token print request fails reporting the
full length 2. -/
theorem claim_C4_witness :
    operationTryFrom ["foo", "bar"] = .error (.InvalidArguments
      ("operation print expects 0 or 1 arguments but got " ++ toString 2)) := by
  have h := claim_C4 ["foo", "bar"] "foo" rfl (by decide) (by decide) (by decide)
  simpa using h

-- Helper lemmas for the path resolver (shared; not claim theorems).

theorem string_ne_empty_of_data (s : String) (h : s.data ≠ []) : s ≠ "" :=
  fun hc => h (by rw [hc])

theorem append_ne_empty_right (a b : String) (h : b.data ≠ []) : a ++ b ≠ "" := by
  apply string_ne_empty_of_data
  rw [String.data_append]
  simp [h]

theorem endsWithSep_append (a b : String) (h : b.data ≠ []) :
    endsWithSep (a ++ b) ↔ endsWithSep b := by
  unfold endsWithSep
  rw [String.data_append, List.getLast?_append_of_ne_nil _ h]

theorem pathPush_relative (base child : String) (h1 : ¬ isAbsolutePath child)
    (h2 : base ≠ "") (h3 : ¬ endsWithSep base) :
    pathPush base child = base ++ "/" ++ child := by
  simp [pathPush, h1, h2, h3]

theorem pathPush_ne_empty (base child : String) (h : child.data ≠ []) :
    pathPush base child ≠ "" := by
  have hc : child ≠ "" := string_ne_empty_of_data child h
  unfold pathPush
  split
  · exact hc
  · split
    · exact hc
    · split
      · exact append_ne_empty_right base child h
      · exact append_ne_empty_right (base ++ "/") child h

theorem get_config_derived (env : String → Option String) (loc : String)
    (h1 : env "XDG_CONFIG_HOME" = some loc) (h2 : loc ≠ "") (h3 : ¬ endsWithSep loc) :
    get_config env none = .ok (loc ++ "/projector/projector.json") := by
  unfold get_config
  rw [h1]
  show Except.ok (pathPush (pathPush loc "projector") "projector.json") =
    Except.ok (loc ++ "/projector/projector.json")
  have hs1 : pathPush loc "projector" = loc ++ "/" ++ "projector" :=
    pathPush_relative loc "projector" (by decide) h2 h3
  have hne : ((loc ++ "/") ++ "projector").data ≠ [] := by
    rw [String.data_append]
    simp [show ("projector" : String).data ≠ [] by decide]
  have hs2 : pathPush (loc ++ "/" ++ "projector") "projector.json" =
      ((loc ++ "/") ++ "projector") ++ "/" ++ "projector.json" := by
    apply pathPush_relative
    · decide
    · exact string_ne_empty_of_data _ hne
    · rw [endsWithSep_append (loc ++ "/") "projector" (by decide)]
      decide
  rw [hs1, hs2]
  apply congrArg
  apply String.ext
  simp only [String.data_append, List.append_assoc]
  apply congrArg
  decide

theorem get_config_none_ne_empty (env : String → Option String) (s : String)
    (h : get_config env none = .ok s) : s ≠ "" := by
  unfold get_config at h
  cases he : env "XDG_CONFIG_HOME" with
  | none => rw [he] at h; simp at h
  | some loc =>
    rw [he] at h
    injection h with h
    rw [← h]
    exact pathPush_ne_empty _ _ (by decide)

theorem get_pwd_none_eq (cd : Option String) (s : String)
    (h : get_pwd cd none = .ok s) : cd = some s := by
  cases cd with
  | none => simp [get_pwd] at h
  | some d =>
    have hd : d = s := by
      have h2 : Except.ok (ε := ConfigError) d = .ok s := h
      injection h2
    rw [hd]

theorem arityOk_holds (op : Operation) : op.arityOk := by
  cases op with
  | Print o => cases o <;> simp [Operation.arityOk, Operation.argCount]
  | Add k v => simp [Operation.arityOk, Operation.argCount]
  | Remove k => simp [Operation.arityOk, Operation.argCount]

/-- Claim C5: with no explicit override, the config path is
`XDG_CONFIG_HOME` with `projector/projector.json` appended (stated for
any non-empty value without a trailing separator, as `PathBuf::push`
inserts exactly one separator there; illustrated on the concrete
example); when the variable is unset, resolution fails with the error
naming it. -/
theorem claim_C5 :
    (∀ (env : String → Option String) (loc : String),
      env "XDG_CONFIG_HOME" = some loc → loc ≠ "" → ¬ endsWithSep loc →
      get_config env none = .ok (loc ++ "/projector/projector.json")) ∧
    (∀ env : String → Option String, env "XDG_CONFIG_HOME" = none →
      get_config env none =
        .error (.EnvironmentLookupFailure "unable to get XDG_CONFIG_HOME")) ∧
    get_config (fun v => if v = "XDG_CONFIG_HOME" then some "/home/u/.config" else none)
      none = .ok "/home/u/.config/projector/projector.json" := by
  refine ⟨get_config_derived, fun env h => ?_, ?_⟩
  · unfold get_config
    rw [h]
  · have h := get_config_derived
      (fun v => if v = "XDG_CONFIG_HOME" then some "/home/u/.config" else none)
      "/home/u/.config" (by decide) (by decide) (by decide)
    rw [h]
    apply congrArg
    decide

/-- Claim C5 witness: the derived-path branch and the unset-variable
branch at concrete environments. -/
theorem claim_C5_witness :
    get_config (fun _ => some "/base") none = .ok "/base/projector/projector.json" ∧
    get_config (fun _ => none) none =
      .error (.EnvironmentLookupFailure "unable to get XDG_CONFIG_HOME") :=
  ⟨claim_C5.1 (fun _ => some "/base") "/base" rfl (by decide) (by decide),
   claim_C5.2.1 (fun _ => none) rfl⟩

/-- Claim C6: an explicit override is returned exactly, for every
environment and every current-directory state: neither is consulted. -/
theorem claim_C6 :
    (∀ (env : String → Option String) (p : String), get_config env (some p) = .ok p) ∧
    (∀ (cd : Option String) (p : String), get_pwd cd (some p) = .ok p) :=
  ⟨fun _ _ => rfl, fun _ _ => rfl⟩

/-- Claim C8: path resolution is deterministic — the result of
`get_config` depends only on the override and the value of
`XDG_CONFIG_HOME`, and the result of `get_pwd` only on the override and
the current directory, so equal inputs give equal paths. -/
theorem claim_C8 :
    (∀ (env1 env2 : String → Option String) (p : String),
      get_config env1 (some p) = get_config env2 (some p)) ∧
    (∀ env1 env2 : String → Option String,
      env1 "XDG_CONFIG_HOME" = env2 "XDG_CONFIG_HOME" →
      get_config env1 none = get_config env2 none) ∧
    (∀ (cd1 cd2 : Option String) (p : String),
      get_pwd cd1 (some p) = get_pwd cd2 (some p)) ∧
    (∀ cd1 cd2 : Option String, cd1 = cd2 → get_pwd cd1 none = get_pwd cd2 none) := by
  refine ⟨fun _ _ _ => rfl, fun env1 env2 h => ?_, fun _ _ _ => rfl,
    fun cd1 cd2 h => by rw [h]⟩
  unfold get_config
  rw [h]

/-- Claim C8 witness: two environments agreeing on `XDG_CONFIG_HOME`
resolve to the same derived path, and equal current directories resolve
to the same working directory. -/
theorem claim_C8_witness :
    get_config (fun _ => some "/a") none =
      get_config (fun v => if v = "XDG_CONFIG_HOME" then some "/a" else none) none ∧
    get_pwd (some "/x") none = get_pwd (some "/x") none :=
  ⟨claim_C8.2.1 (fun _ => some "/a")
      (fun v => if v = "XDG_CONFIG_HOME" then some "/a" else none) (by decide),
   claim_C8.2.2.2 (some "/x") (some "/x") rfl⟩

/-- Claim C9: the failure message of the `rm` branch names the
operation as `add` — it is exactly the string
`operation add expects 1 argument but got {len - 1}`, whose text starts
with `operation add`. -/
theorem claim_C9 (l : List String) (h1 : l.head? = some "rm") (h2 : l.length ≠ 2) :
    operationTryFrom l = .error (.InvalidArguments
      ("operation add expects 1 argument but got " ++ toString (l.length - 1))) ∧
    ("operation add expects 1 argument but got " ++ toString (l.length - 1)) =
      "operation add" ++ (" expects 1 argument but got " ++ toString (l.length - 1)) := by
  constructor
  · cases l with
    | nil => simp at h1
    | cons a t =>
      simp only [List.head?] at h1
      injection h1 with h1
      subst h1
      simp only [List.length_cons] at h2
      simpa using operationTryFrom_rm_err t h2
  · rw [← String.append_assoc]
    apply congrArg (fun s => s ++ toString (l.length - 1))
    decide

/-- Claim C9 witness: the misnamed message at the concrete input
`["rm"]`. -/
theorem claim_C9_witness :
    operationTryFrom ["rm"] = .error (.InvalidArguments
      ("operation add expects 1 argument but got " ++ toString 0)) := by
  have h := (claim_C9 ["rm"] rfl (by decide)).1
  simpa using h

/-- Claim C10: when classification of the args fails, `try_from` for
`Config` returns that very error, for every environment and every
current-directory state — neither is consulted. -/
theorem claim_C10 (env : String → Option String) (cd : Option String) (o : Opts)
    (e : ConfigError) (h : operationTryFrom o.args = .error e) :
    configTryFrom env cd o = .error e := by
  unfold configTryFrom
  rw [h]

/-- Claim C10 witness: a failing `rm` invocation yields the classifier
error from `Config::try_from` even with an empty environment and no
current directory. -/
theorem claim_C10_witness :
    configTryFrom (fun _ => none) none { args := ["rm"], pwd := none, config := none } =
      .error (.InvalidArguments "operation add expects 1 argument but got 0") :=
  claim_C10 (fun _ => none) none { args := ["rm"], pwd := none, config := none }
    (.InvalidArguments "operation add expects 1 argument but got 0") rfl

/-- Claim C7 counterexample: the invariant is false as stated — an
explicit empty-string override is used as-is, so construction succeeds
with an empty config path and an empty working directory. -/
theorem claim_C7_counterexample :
    ¬ (∀ (env : String → Option String) (cd : Option String) (o : Opts) (c : Config),
        configTryFrom env cd o = .ok c →
        c.config ≠ "" ∧ c.pwd ≠ "" ∧ c.operation.arityOk) := by
  intro h
  exact (h (fun _ => none) none { args := [], pwd := some "", config := some "" }
    { operation := .Print none, pwd := "", config := "" } rfl).1 rfl

/-- Claim C7 (amended): every successfully constructed `Config` has an
`Operation` whose argument count matches its variant's contract; its
config path equals the explicit override when one is supplied (and so
may be empty, since overrides are used as-is with no validation) and is
non-empty when derived from `XDG_CONFIG_HOME`; likewise the working
directory equals the explicit override when supplied, and otherwise is
exactly the queried current directory. -/
theorem claim_C7 (env : String → Option String) (cd : Option String) (o : Opts)
    (c : Config) (h : configTryFrom env cd o = .ok c) :
    c.operation.arityOk ∧
    (o.config = none → c.config ≠ "") ∧
    (∀ p, o.config = some p → c.config = p) ∧
    (∀ p, o.pwd = some p → c.pwd = p) ∧
    (o.pwd = none → cd = some c.pwd) := by
  unfold configTryFrom at h
  cases hop : operationTryFrom o.args with
  | error e => rw [hop] at h; exact absurd h (by simp)
  | ok op =>
    rw [hop] at h
    cases hcfg : get_config env o.config with
    | error e => rw [hcfg] at h; exact absurd h (by simp)
    | ok cfg =>
      rw [hcfg] at h
      cases hpwd : get_pwd cd o.pwd with
      | error e => rw [hpwd] at h; exact absurd h (by simp)
      | ok pw =>
        rw [hpwd] at h
        injection h with h
        subst h
        refine ⟨arityOk_holds op, ?_, ?_, ?_, ?_⟩
        · intro hnone
          rw [hnone] at hcfg
          exact get_config_none_ne_empty env cfg hcfg
        · intro p hp
          rw [hp] at hcfg
          have h2 : Except.ok (ε := ConfigError) p = .ok cfg := hcfg
          injection h2 with h2
          exact h2.symm
        · intro p hp
          rw [hp] at hpwd
          have h2 : Except.ok (ε := ConfigError) p = .ok pw := hpwd
          injection h2 with h2
          exact h2.symm
        · intro hnone
          rw [hnone] at hpwd
          exact get_pwd_none_eq cd pw hpwd

/-- Claim C7 witness: a concrete successful construction with no
overrides, whose derived config path is non-empty and whose working
directory is the queried current directory. -/
theorem claim_C7_witness :
    configTryFrom (fun _ => some "/base") (some "/cwd")
      { args := [], pwd := none, config := none } =
      .ok { operation := .Print none, pwd := "/cwd",
            config := "/base/projector/projector.json" } ∧
    "/base/projector/projector.json" ≠ "" := by
  have hok : configTryFrom (fun _ => some "/base") (some "/cwd")
      { args := [], pwd := none, config := none } =
      .ok { operation := .Print none, pwd := "/cwd",
            config := "/base/projector/projector.json" } := rfl
  refine ⟨hok, ?_⟩
  exact (claim_C7 (fun _ => some "/base") (some "/cwd")
    { args := [], pwd := none, config := none }
    { operation := .Print none, pwd := "/cwd",
      config := "/base/projector/projector.json" } hok).2.1 rfl
